import Mathlib

/-!
Shallow embedding of the LLM gateway core of the repository
(CloudFlare-Nextjs-LLM-starter-2026): the model registry and cost
function (`src/lib/llm/types.ts`), the provider dispatch of
`streamChat` / `generateChat` (`src/lib/llm/index.ts`), the structured
logger (`src/lib/logger.ts`), and the `CostTracker`
(`src/lib/cost-tracker.ts`).

Conventions of the embedding:
* JavaScript `number` is modelled by `ℚ` (the values involved in the
  verified claims are exact decimals and integers, on which IEEE-754
  and rational arithmetic agree for the stated identities only insofar
  as both are deterministic; the algebraic identities are stated over
  `ℚ`).
* A JavaScript value that may be `undefined` is an `Option`.
* JavaScript string truthiness (`undefined` and `""` are falsy) is the
  `truthy` predicate below; `a || b` on optional strings is `jsOr`.
* Code that can `throw` runs in `Except String`; a `try/catch` in the
  source is a `match` on the `Except` value.
* Observable side effects (structured log lines, database inserts) are
  collected in an explicit event trace.
-/

/-! ## `src/lib/llm/types.ts` -/

/-- `LLMUsage` from `src/lib/llm/types.ts`: token counts of one call. -/
structure LLMUsage where
  inputTokens : ℚ
  outputTokens : ℚ
  totalTokens : ℚ
deriving DecidableEq, Repr

/-- One entry of the `MODEL_PRICING` record: USD per 1K tokens. -/
structure Pricing where
  input : ℚ
  output : ℚ
deriving DecidableEq, Repr

/-- `MODEL_PRICING` from `src/lib/llm/types.ts`, as a partial map from
model name to pricing; a model name absent from the record is `none`
(JavaScript indexing yields `undefined`). -/
def MODEL_PRICING : String → Option Pricing
  | "gpt-4o" => some ⟨0.0025, 0.01⟩
  | "gpt-4o-mini" => some ⟨0.00015, 0.0006⟩
  | "gpt-4-turbo" => some ⟨0.01, 0.03⟩
  | "gpt-4" => some ⟨0.03, 0.06⟩
  | "gpt-3.5-turbo" => some ⟨0.0005, 0.0015⟩
  | "gemini-1.5-pro" => some ⟨0.00125, 0.005⟩
  | "gemini-1.5-flash" => some ⟨0.000075, 0.0003⟩
  | "gemini-1.0-pro" => some ⟨0.0005, 0.0015⟩
  | _ => none

/-- `calculateCost` from `src/lib/llm/types.ts`: looks the model up in
`MODEL_PRICING` and falls back to the gpt-4o-mini rates when absent. -/
def calculateCost (model : String) (usage : LLMUsage) : ℚ :=
  match MODEL_PRICING model with
  | none => (usage.inputTokens * 0.00015 + usage.outputTokens * 0.0006) / 1000
  | some pricing =>
      (usage.inputTokens * pricing.input + usage.outputTokens * pricing.output) / 1000

/-- `DEFAULT_MODELS` from `src/lib/llm/types.ts`. In the source the
record is keyed by the union type `LLMProvider`, but `streamChat` casts
an arbitrary environment string to `LLMProvider`, so indexing with an
unknown provider yields `undefined` (`none` here). -/
def DEFAULT_MODELS : String → Option String
  | "openai" => some "gpt-4o-mini"
  | "gemini" => some "gemini-1.5-flash"
  | _ => none

/-! ## `src/lib/llm/index.ts` — dispatch -/

/-- JavaScript string truthiness: `undefined` and `""` are falsy. -/
def truthy : Option String → Bool
  | none => false
  | some s => !(s == "")

/-- JavaScript `a || b` on possibly-undefined strings. -/
def jsOr (a b : Option String) : Option String :=
  if truthy a then a else b

/-- JavaScript `a || b || d` where `d` is a (truthy) string literal. -/
def jsOrStr (a : Option String) (d : String) : String :=
  match a with
  | none => d
  | some s => if s == "" then d else s

/-- The `env` field of `StreamChatOptions` in `src/lib/llm/index.ts`. -/
structure Env where
  OPENAI_API_KEY : Option String
  GEMINI_API_KEY : Option String
  DEFAULT_LLM_PROVIDER : Option String
deriving DecidableEq, Repr

/-- `StreamChatOptions` from `src/lib/llm/index.ts`. The provider
option is a `String` because the source casts environment strings to
`LLMProvider` unchecked. Messages are irrelevant to dispatch and kept
abstract as a count. -/
structure StreamChatOptions where
  messageCount : ℕ
  provider : Option String
  model : Option String
  temperature : Option ℚ
  maxTokens : Option ℚ
  apiKey : Option String
  env : Option Env
deriving DecidableEq, Repr

/-- Which provider adapter a dispatch invokes
(`streamOpenAIChat`/`generateOpenAIChat` vs
`streamGeminiChat`/`generateGeminiChat`). -/
inductive Adapter
  | openai
  | gemini
deriving DecidableEq, Repr

/-- A successful dispatch: the adapter that was invoked together with
the resolved configuration (the `LLMConfig` built by the source) and,
for `streamChat`, the `provider`/`model` echoed on the result. An
adapter (network) call happens exactly when dispatch returns `ok`. -/
structure DispatchResult where
  adapter : Adapter
  provider : String
  model : Option String
  apiKey : String
deriving DecidableEq, Repr

/-- Provider resolution of `streamChat`/`generateChat`
(`src/lib/llm/index.ts` line 38 and line 74):
`options.provider || env?.DEFAULT_LLM_PROVIDER || "openai"`. -/
def resolveProvider (o : StreamChatOptions) : String :=
  jsOrStr (jsOr o.provider (o.env.bind Env.DEFAULT_LLM_PROVIDER)) "openai"

/-- Model resolution (line 40 and line 76):
`options.model || DEFAULT_MODELS[provider]`. -/
def resolveModel (o : StreamChatOptions) : Option String :=
  jsOr o.model (DEFAULT_MODELS (resolveProvider o))

/-- API-key resolution (lines 42-44 and 78-80): the explicit option,
else the environment key selected by the resolved provider. -/
def resolveApiKey (o : StreamChatOptions) : Option String :=
  jsOr o.apiKey
    (if resolveProvider o == "openai" then o.env.bind Env.OPENAI_API_KEY
     else o.env.bind Env.GEMINI_API_KEY)

/-- `streamChat` from `src/lib/llm/index.ts` (lines 37-68), up to the
adapter boundary: resolves provider, model and API key, throws the
configuration error when no key is truthy, and otherwise invokes the
adapter selected by `provider === "openai"`. The returned record
carries the resolved provider and model, as the source spreads them
over the adapter result. -/
def streamChat (o : StreamChatOptions) : Except String DispatchResult :=
  let provider := resolveProvider o
  let model := resolveModel o
  let apiKey := resolveApiKey o
  if !(truthy apiKey) then
    .error ("API key not found for provider: " ++ provider)
  else
    .ok { adapter := if provider == "openai" then .openai else .gemini
          provider := provider
          model := model
          apiKey := apiKey.getD "" }

/-- `generateChat` from `src/lib/llm/index.ts` (lines 73-97): identical
resolution and guard, dispatching to the non-streaming adapters. -/
def generateChat (o : StreamChatOptions) : Except String DispatchResult :=
  let provider := resolveProvider o
  let model := resolveModel o
  let apiKey := resolveApiKey o
  if !(truthy apiKey) then
    .error ("API key not found for provider: " ++ provider)
  else
    .ok { adapter := if provider == "openai" then .openai else .gemini
          provider := provider
          model := model
          apiKey := apiKey.getD "" }

/-! ## `src/drizzle/schema/usage-logs.ts` -/

/-- A persisted `usage_logs` row (`src/drizzle/schema/usage-logs.ts`);
`createdAt` is an epoch-milliseconds timestamp filled in at insert
time. The `metadata` JSON column is irrelevant to every claim and
omitted. -/
structure UsageLog where
  requestId : String
  userId : Option String
  provider : String
  model : String
  inputTokens : ℚ
  outputTokens : ℚ
  totalTokens : ℚ
  costUsd : ℚ
  latencyMs : Option ℚ
  status : String
  errorMessage : Option String
  endpoint : Option String
  createdAt : ℤ
deriving DecidableEq, Repr

/-! ## `src/lib/logger.ts` — structured logger -/

/-- `LogLevel` from `src/lib/logger.ts`. -/
inductive LogLevel
  | debug
  | info
  | warn
  | error
deriving DecidableEq, Repr

/-- `LOG_LEVELS` from `src/lib/logger.ts`. -/
def LOG_LEVELS : LogLevel → ℕ
  | .debug => 0
  | .info => 1
  | .warn => 2
  | .error => 3

/-- `Logger.shouldLog`: `LOG_LEVELS[level] >= LOG_LEVELS[this.minLevel]`. -/
def Logger.shouldLog (minLevel level : LogLevel) : Bool :=
  LOG_LEVELS minLevel ≤ LOG_LEVELS level

/-- The `LLMLogContext` built by `CostTracker.track`
(`src/lib/cost-tracker.ts` lines 62-75). -/
structure LLMLogContext where
  requestId : String
  userId : Option String
  provider : String
  model : String
  inputTokens : ℚ
  outputTokens : ℚ
  totalTokens : ℚ
  costUsd : ℚ
  latencyMs : Option ℚ
  status : String
  errorMessage : Option String
  endpoint : Option String
deriving DecidableEq, Repr

/-- The context payloads that the cost tracker ever hands to the
logger: the LLM usage context (with the `type: "llm_call"` field the
logger adds), the two local error contexts, and the daily-threshold
warning context. -/
inductive LogContextV
  | llm (c : LLMLogContext) (type : String)
  | dbError (error : String) (requestId : String)
  | thresholdError (error : String)
  | summaryError (error : String)
  | warnDaily (dailyCost : ℚ) (threshold : ℚ) (userId : Option String)
deriving DecidableEq, Repr

/-- `LogEntry` from `src/lib/logger.ts`: the shape of every emitted
line has exactly the four top-level fields below. The module-level
`logger` instance has an empty `defaultContext`, so the spread in
`formatLog` leaves the call-site context unchanged. -/
structure LogEntry where
  timestamp : String
  level : LogLevel
  message : String
  context : LogContextV
deriving DecidableEq, Repr

/-- Observable effects of the cost tracker: a structured log line
written to the console, or an attempted database insert. -/
inductive Event
  | logLine (e : LogEntry)
  | dbInsertAttempt (row : UsageLog)
deriving DecidableEq, Repr

/-- `Logger.debug/info/warn/error` share this shape: filter by level,
then `output(formatLog(level, message, context))`. `minLevel` is the
level of the module-wide `logger` instance (`process.env.LOG_LEVEL`
or `"info"`). -/
def Logger.log (minLevel level : LogLevel) (ts message : String)
    (context : LogContextV) : List Event :=
  if Logger.shouldLog minLevel level then
    [Event.logLine ⟨ts, level, message, context⟩]
  else []

/-- `Logger.llm` from `src/lib/logger.ts`: an `info` line with
`type: "llm_call"` spread into the context. -/
def Logger.llm (minLevel : LogLevel) (ts message : String)
    (c : LLMLogContext) : List Event :=
  Logger.log minLevel .info ts message (.llm c "llm_call")

/-! ## The database handle -/

/-- The database handle as the tracker sees it: stored rows plus
fault-injection flags standing for a failing driver. -/
structure Db where
  rows : List UsageLog
  insertFails : Bool
  selectFails : Bool
deriving DecidableEq, Repr

/-- `db.insert(usageLogs).values(entry)`: appends the row, or throws
when the driver fails. -/
def Db.insertRow (d : Db) (row : UsageLog) : Except String Db :=
  if d.insertFails then .error "db insert failed"
  else .ok { d with rows := d.rows ++ [row] }

/-- `db.select().from(usageLogs).where(gte(usageLogs.createdAt, t))`. -/
def Db.selectSince (d : Db) (since : ℤ) : Except String (List UsageLog) :=
  if d.selectFails then .error "db select failed"
  else .ok (d.rows.filter (fun r => decide (since ≤ r.createdAt)))

/-- Ambient time for one `track` call: the ISO timestamp the logger
stamps, the epoch instant the insert records, and the local-midnight
instant `new Date(); setHours(0,0,0,0)` computes. -/
structure Clock where
  nowIso : String
  nowEpoch : ℤ
  midnight : ℤ
deriving DecidableEq, Repr

/-! ## `src/lib/cost-tracker.ts` -/

/-- `CostTrackerConfig` from `src/lib/cost-tracker.ts`. -/
structure CostTrackerConfig where
  enabled : Option Bool
  alertThreshold : Option ℚ
deriving DecidableEq, Repr

/-- The `CostTracker` state after construction: both fields are
defaulted by the constructor. -/
structure CostTracker where
  enabled : Bool
  alertThreshold : ℚ
deriving DecidableEq, Repr

/-- The `CostTracker` constructor (lines 28-33): `enabled ?? true`,
`alertThreshold ?? 10.0`. -/
def CostTracker.init (config : CostTrackerConfig) : CostTracker :=
  { enabled := config.enabled.getD true
    alertThreshold := config.alertThreshold.getD 10 }

/-- The parameter record of `CostTracker.track` (lines 45-56), minus
the opaque `metadata`. -/
structure TrackParams where
  requestId : String
  userId : Option String
  provider : String
  model : String
  usage : LLMUsage
  latencyMs : Option ℚ
  status : Option String
  errorMessage : Option String
  endpoint : Option String
deriving DecidableEq, Repr

/-- The `LLMLogContext` literal of lines 62-75. -/
def trackContext (p : TrackParams) (cost : ℚ) : LLMLogContext :=
  { requestId := p.requestId
    userId := p.userId
    provider := p.provider
    model := p.model
    inputTokens := p.usage.inputTokens
    outputTokens := p.usage.outputTokens
    totalTokens := p.usage.totalTokens
    costUsd := cost
    latencyMs := p.latencyMs
    status := jsOrStr p.status "success"
    errorMessage := p.errorMessage
    endpoint := p.endpoint }

/-- The `NewUsageLog` literal of lines 81-95; `createdAt` is supplied
by the column default at insert time. -/
def trackRow (p : TrackParams) (cost : ℚ) (createdAt : ℤ) : UsageLog :=
  { requestId := p.requestId
    userId := p.userId
    provider := p.provider
    model := p.model
    inputTokens := p.usage.inputTokens
    outputTokens := p.usage.outputTokens
    totalTokens := p.usage.totalTokens
    costUsd := cost
    latencyMs := p.latencyMs
    status := jsOrStr p.status "success"
    errorMessage := p.errorMessage
    endpoint := p.endpoint
    createdAt := createdAt }

/-- `CostTracker.checkDailyThreshold` (lines 114-144): skipped when no
database is set or when `alertThreshold` is falsy (after construction
the field is a number, so falsy means `0`); otherwise selects the rows
created since local midnight, sums their `costUsd` with `reduce`, and
warns when the sum strictly exceeds the threshold. A select failure is
caught and logged as an error line. -/
def CostTracker.checkDailyThreshold (t : CostTracker) (minLevel : LogLevel)
    (clk : Clock) (db : Option Db) (userId : Option String) : List Event :=
  match db with
  | none => []
  | some d =>
    if t.alertThreshold == 0 then []
    else
      match Db.selectSince d clk.midnight with
      | .error e =>
          Logger.log minLevel .error clk.nowIso "Failed to check daily threshold"
            (.thresholdError e)
      | .ok logs =>
          let dailyCost := logs.foldl (fun sum log => sum + log.costUsd) 0
          if t.alertThreshold < dailyCost then
            Logger.log minLevel .warn clk.nowIso "Daily cost threshold exceeded"
              (.warnDaily dailyCost t.alertThreshold userId)
          else []

/-- `CostTracker.track` (lines 45-109). Returns the event trace and
the updated database; the `Except` layer carries any exception that
would escape `track` — the source catches the fallible insert and the
threshold check catches its own select, so no branch below produces
`.error`. -/
def CostTracker.track (t : CostTracker) (minLevel : LogLevel) (clk : Clock)
    (db : Option Db) (p : TrackParams) : Except String (List Event × Option Db) :=
  if !t.enabled then .ok ([], db)
  else
    let cost := calculateCost p.model p.usage
    let ev1 := Logger.llm minLevel clk.nowIso "LLM API call completed" (trackContext p cost)
    match db with
    | none => .ok (ev1, none)
    | some d =>
      let row := trackRow p cost clk.nowEpoch
      let (ev2, d2) :=
        match Db.insertRow d row with
        | .ok d2 => (([] : List Event), d2)
        | .error e =>
            (Logger.log minLevel .error clk.nowIso "Failed to log usage to database"
              (.dbError e p.requestId), d)
      let ev3 := t.checkDailyThreshold minLevel clk (some d2) p.userId
      .ok (ev1 ++ Event.dbInsertAttempt row :: ev2 ++ ev3, some d2)

/-! ## `CostTracker.getSummary` (lines 149-212) -/

/-- The options record of `getSummary`; dates are epoch instants. -/
structure SummaryOptions where
  startDate : Option ℤ
  endDate : Option ℤ
  userId : Option String
deriving DecidableEq, Repr

/-- The `where` clause of lines 158-174: conjunction of
`gte(createdAt, startDate)`, `lte(createdAt, endDate)`,
`eq(userId, userId)` for the options that are present. -/
def matchesFilter (o : SummaryOptions) (r : UsageLog) : Bool :=
  (match o.startDate with
   | none => true
   | some s => decide (s ≤ r.createdAt)) &&
  (match o.endDate with
   | none => true
   | some e => decide (r.createdAt ≤ e)) &&
  (match o.userId with
   | none => true
   | some u => r.userId == some u)

/-- `db.select().from(usageLogs).where(...)` with the summary filter. -/
def Db.selectWhere (d : Db) (o : SummaryOptions) : Except String (List UsageLog) :=
  if d.selectFails then .error "db select failed"
  else .ok (d.rows.filter (matchesFilter o))

/-- One `{ cost, tokens, requests }` bucket of `UsageSummary`. -/
structure SummaryBucket where
  cost : ℚ
  tokens : ℚ
  requests : ℕ
deriving DecidableEq, Repr

/-- `UsageSummary` from `src/lib/cost-tracker.ts`; the two records are
association lists keyed by provider and by model. -/
structure UsageSummary where
  totalCost : ℚ
  totalTokens : ℚ
  totalRequests : ℕ
  byProvider : List (String × SummaryBucket)
  byModel : List (String × SummaryBucket)
deriving DecidableEq, Repr

/-- Initialize-if-absent then `+=` update of one bucket (lines
188-202): the first visit of a key installs `{0,0,0}` and the visit
itself adds the row's cost, tokens and one request. -/
def bucketAdd (m : List (String × SummaryBucket)) (k : String) (c tok : ℚ) :
    List (String × SummaryBucket) :=
  match m with
  | [] => [(k, ⟨c, tok, 1⟩)]
  | (k2, b) :: rest =>
      if k2 == k then (k2, ⟨b.cost + c, b.tokens + tok, b.requests + 1⟩) :: rest
      else (k2, b) :: bucketAdd rest k c tok

/-- The body of the `for (const log of logs)` loop (lines 184-203). -/
def summaryStep (s : UsageSummary) (log : UsageLog) : UsageSummary :=
  { totalCost := s.totalCost + log.costUsd
    totalTokens := s.totalTokens + log.totalTokens
    totalRequests := s.totalRequests
    byProvider := bucketAdd s.byProvider log.provider log.costUsd log.totalTokens
    byModel := bucketAdd s.byModel log.model log.costUsd log.totalTokens }

/-- `CostTracker.getSummary` (lines 149-212): `none` without a
database; on a select failure the catch logs an error line and returns
`null`; otherwise one pass over the filtered rows starting from a
summary whose `totalRequests` is the row count. -/
def CostTracker.getSummary (_t : CostTracker) (minLevel : LogLevel) (clk : Clock)
    (db : Option Db) (o : SummaryOptions) : List Event × Option UsageSummary :=
  match db with
  | none => ([], none)
  | some d =>
    match Db.selectWhere d o with
    | .error e =>
        (Logger.log minLevel .error clk.nowIso "Failed to get usage summary"
          (.summaryError e), none)
    | .ok logs =>
        ([], some (logs.foldl summaryStep
          { totalCost := 0
            totalTokens := 0
            totalRequests := logs.length
            byProvider := []
            byModel := [] }))

/-! ## Derived notions used by the statements -/

/-- Sum of `costUsd` over the rows created at or after the given
local-midnight instant — the quantity `checkDailyThreshold` accumulates. -/
def dailySum (rows : List UsageLog) (midnight : ℤ) : ℚ :=
  ((rows.filter (fun r => decide (midnight ≤ r.createdAt))).map UsageLog.costUsd).sum

/-- Recognizes a warning-level log line in an event trace. -/
def isWarnLine : Event → Bool
  | .logLine e => e.level == .warn
  | _ => false

/-! ## Concrete fixtures used by witnesses and counterexamples -/

/-- Concrete inputs for the C5 witness. -/
def oC5 : StreamChatOptions :=
  ⟨2, some "gemini", some "my-model", none, none, some "k",
   some ⟨some "ok", some "gk", some "openai"⟩⟩

/-- The dispatch result of `streamChat oC5`. -/
def rC5 : DispatchResult := ⟨.gemini, "gemini", some "my-model", "k"⟩

/-- Concrete defaulting input for the C5 witness. -/
def oC5b : StreamChatOptions := ⟨0, none, none, none, none, some "k", none⟩

/-- The dispatch result of `streamChat oC5b`. -/
def rC5b : DispatchResult := ⟨.openai, "openai", some "gpt-4o-mini", "k"⟩

/-- Concrete input for the C9 witness: an arbitrary provider string
arriving via the environment default. -/
def oC9 : StreamChatOptions :=
  ⟨1, none, none, none, none, none, some ⟨none, some "gk", some "llama-7b"⟩⟩

/-- Concrete params shared by the tracker witnesses. -/
def pW : TrackParams :=
  ⟨"req-1", some "u1", "openai", "gpt-4o-mini", ⟨10, 20, 30⟩, some 5, none, none,
   some "/api/chat"⟩

/-! Concrete values shared by the `track` witnesses. -/

/-- Tracker with the default configuration (enabled, $10 threshold). -/
def tW : CostTracker := CostTracker.init ⟨none, none⟩

/-- A concrete clock. -/
def clkW : Clock := ⟨"T0", 100, 50⟩

/-- An empty database whose insert fails. -/
def dbFW : Db := ⟨[], true, false⟩

/-- An empty working database. -/
def dbW : Db := ⟨[], false, false⟩

/-- The cost `track` computes for `pW`. -/
def costW : ℚ := calculateCost pW.model pW.usage

/-- The structured LLM line of `track tW _ clkW _ pW`. -/
def eW : LogEntry :=
  ⟨"T0", .info, "LLM API call completed", .llm (trackContext pW costW) "llm_call"⟩

/-- The row `track` inserts for `pW`. -/
def rowW : UsageLog := trackRow pW costW 100

/-- The error line of the failing insert. -/
def errW : LogEntry :=
  ⟨"T0", .error, "Failed to log usage to database", .dbError "db insert failed" "req-1"⟩

/-- The trace of `track` on the failing database. -/
def evW4 : List Event := [.logLine eW, .dbInsertAttempt rowW, .logLine errW]

/-- The trace of `track` on the working database. -/
def evW8 : List Event := [.logLine eW, .dbInsertAttempt rowW]

/-- Tracker constructed with an explicit threshold of `0`. -/
def tC3z : CostTracker := CostTracker.init ⟨none, some 0⟩

/-- Zero-usage params for the threshold runs (cost `0`). -/
def pC3 : TrackParams :=
  ⟨"r-new", some "u1", "openai", "gpt-4o-mini", ⟨0, 0, 0⟩, none, none, none, none⟩

/-- A five-dollar row created after local midnight (`clkW.midnight = 50`). -/
def rowOld : UsageLog :=
  ⟨"r0", none, "openai", "gpt-4", 1, 1, 2, 5, none, "success", none, none, 60⟩

/-- Database holding `rowOld`, with a working driver. -/
def dbC3z : Db := ⟨[rowOld], false, false⟩

/-- The row `track` inserts for `pC3` under `clkW`. -/
def rowC3 : UsageLog := trackRow pC3 (calculateCost pC3.model pC3.usage) 100

/-- The structured line of the `pC3` runs. -/
def eC3 : LogEntry :=
  ⟨"T0", .info, "LLM API call completed",
   .llm (trackContext pC3 (calculateCost pC3.model pC3.usage)) "llm_call"⟩

/-- Trace of `track tC3z .info clkW (some dbC3z) pC3`: no warning line. -/
def evC3z : List Event := [.logLine eC3, .dbInsertAttempt rowC3]

/-- The database after that insert. -/
def d2C3z : Db := ⟨[rowOld, rowC3], false, false⟩

/-- A one-dollar usage row created after local midnight. -/
def oneDollarRow : UsageLog :=
  ⟨"r0", some "u1", "openai", "gpt-4o", 100, 100, 200, 1, none, "success", none, none, 60⟩

/-- Eleven persisted one-dollar rows for today, as in the spec example. -/
def rows11 : List UsageLog :=
  [oneDollarRow, oneDollarRow, oneDollarRow, oneDollarRow, oneDollarRow, oneDollarRow,
   oneDollarRow, oneDollarRow, oneDollarRow, oneDollarRow, oneDollarRow]

/-- Database holding the eleven rows, with a working driver. -/
def dbC3w : Db := ⟨rows11, false, false⟩

/-- Summary fixture rows: two providers, three models. -/
def rowQ1 : UsageLog :=
  ⟨"q1", some "u1", "openai", "gpt-4o", 10, 10, 20, 2, none, "success", none, none, 60⟩

/-- Second summary fixture row. -/
def rowQ2 : UsageLog :=
  ⟨"q2", some "u2", "openai", "gpt-4o-mini", 5, 5, 10, 1, none, "success", none, none, 70⟩

/-- Third summary fixture row. -/
def rowQ3 : UsageLog :=
  ⟨"q3", none, "gemini", "gemini-1.5-flash", 8, 8, 16, 3, none, "success", none, none, 80⟩

/-- The summary fixture set. -/
def rowsC7 : List UsageLog := [rowQ1, rowQ2, rowQ3]

/-- Database holding the summary fixture set. -/
def dC7 : Db := ⟨rowsC7, false, false⟩

/-- Unfiltered summary options. -/
def oC7 : SummaryOptions := ⟨none, none, none⟩

/-- The summary `getSummary` produces on `dC7` with `oC7`. -/
def sC7 : UsageSummary :=
  (rowsC7.filter (matchesFilter oC7)).foldl summaryStep
    { totalCost := 0
      totalTokens := 0
      totalRequests := (rowsC7.filter (matchesFilter oC7)).length
      byProvider := []
      byModel := [] }

/-! ## Helper lemmas -/

theorem jsOr_pos (a b : Option String) (h : truthy a = true) : jsOr a b = a := by
  simp [jsOr, h]

theorem jsOr_neg (a b : Option String) (h : truthy a = false) : jsOr a b = b := by
  simp [jsOr, h]

theorem jsOrStr_pos (a : Option String) (d : String) (h : truthy a = true) :
    jsOrStr a d = a.getD "" := by
  cases a with
  | none => simp [truthy] at h
  | some s =>
      simp only [truthy, Bool.not_eq_true', beq_eq_false_iff_ne, ne_eq] at h
      simp [jsOrStr, h]

theorem jsOrStr_neg (a : Option String) (d : String) (h : truthy a = false) :
    jsOrStr a d = d := by
  cases a with
  | none => rfl
  | some s =>
      simp only [truthy, Bool.not_eq_eq_eq_not, Bool.not_true, beq_eq_false_iff_ne, ne_eq,
        Decidable.not_not] at h
      simp [jsOrStr, h]

theorem truthy_some (a : Option String) (h : truthy a = true) : a = some (a.getD "") := by
  cases a <;> simp_all [truthy]

theorem shouldLog_error_always (minLevel : LogLevel) :
    Logger.shouldLog minLevel .error = true := by
  cases minLevel <;> rfl

theorem foldl_costUsd_eq_sum (logs : List UsageLog) (a : ℚ) :
    logs.foldl (fun s log => s + log.costUsd) a = a + (logs.map UsageLog.costUsd).sum := by
  induction logs generalizing a with
  | nil => simp
  | cons l ls ih => simp [List.foldl, ih, add_assoc]

/-! ## Claim theorems -/

/-- Claim C2: `calculateCost` is deterministic (identical inputs give
identical output; it is a pure function of its arguments with no state,
so it is also side-effect free by construction), for every model in the
pricing registry it equals
`(inputTokens * price.input + outputTokens * price.output) / 1000`, and
for the all-zero usage record the result is `0`. -/
theorem calculateCost_deterministic_and_formula :
    (∀ m u m2 u2, m = m2 → u = u2 → calculateCost m u = calculateCost m2 u2)
  ∧ (∀ m u p, MODEL_PRICING m = some p →
      calculateCost m u = (u.inputTokens * p.input + u.outputTokens * p.output) / 1000)
  ∧ (∀ m, calculateCost m ⟨0, 0, 0⟩ = 0) := by
  refine ⟨?_, ?_, ?_⟩
  · intro m u m2 u2 hm hu
    rw [hm, hu]
  · intro m u p hp
    simp [calculateCost, hp]
  · intro m
    unfold calculateCost
    cases MODEL_PRICING m <;> simp

/-- Witness for C2 at concrete inputs. -/
theorem calculateCost_deterministic_and_formula_witness :
    calculateCost "gpt-4o" ⟨100, 200, 300⟩ =
      ((100 : ℚ) * 0.0025 + (200 : ℚ) * 0.01) / 1000
  ∧ calculateCost "gemini-1.5-pro" ⟨0, 0, 0⟩ = 0 :=
  ⟨calculateCost_deterministic_and_formula.2.1 "gpt-4o" ⟨100, 200, 300⟩
      ⟨0.0025, 0.01⟩ rfl,
   calculateCost_deterministic_and_formula.2.2 "gemini-1.5-pro"⟩

/-- Claim C6: for a model absent from the pricing registry and
non-negative token counts, `calculateCost` returns the gpt-4o-mini
fallback rates (0.00015 / 0.0006 USD per 1K tokens) and the result is
non-negative; being a total function, it never throws. -/
theorem calculateCost_fallback (m : String) (u : LLMUsage)
    (hm : MODEL_PRICING m = none)
    (hi : 0 ≤ u.inputTokens) (ho : 0 ≤ u.outputTokens) :
    calculateCost m u = (u.inputTokens * 0.00015 + u.outputTokens * 0.0006) / 1000
  ∧ 0 ≤ calculateCost m u := by
  have hform : calculateCost m u =
      (u.inputTokens * 0.00015 + u.outputTokens * 0.0006) / 1000 := by
    simp [calculateCost, hm]
  refine ⟨hform, ?_⟩
  rw [hform]
  apply div_nonneg _ (by norm_num)
  have h1 : (0 : ℚ) ≤ u.inputTokens * 0.00015 := mul_nonneg hi (by norm_num)
  have h2 : (0 : ℚ) ≤ u.outputTokens * 0.0006 := mul_nonneg ho (by norm_num)
  exact add_nonneg h1 h2

/-- Witness for C6 at a concrete unknown model. -/
theorem calculateCost_fallback_witness :
    calculateCost "llama-3-70b" ⟨3, 5, 8⟩ =
      ((3 : ℚ) * 0.00015 + (5 : ℚ) * 0.0006) / 1000
  ∧ 0 ≤ calculateCost "llama-3-70b" ⟨3, 5, 8⟩ :=
  calculateCost_fallback "llama-3-70b" ⟨3, 5, 8⟩ rfl (by decide) (by decide)

/-- Claim C1: when no API key is truthy — neither the explicit option
nor the environment variable selected by the resolved provider —
`streamChat` and `generateChat` both return the configuration error
immediately; no adapter (network) call occurs, since an adapter
invocation exists exactly in the `ok` result. This covers both
providers, the resolved provider being arbitrary. -/
theorem streamChat_missing_key (o : StreamChatOptions)
    (h : truthy (resolveApiKey o) = false) :
    streamChat o = .error ("API key not found for provider: " ++ resolveProvider o)
  ∧ generateChat o = .error ("API key not found for provider: " ++ resolveProvider o) := by
  constructor
  · simp [streamChat, h]
  · simp [generateChat, h]

/-- Witness for C1: one openai-resolving and one gemini-resolving
option record, each with no usable key. -/
theorem streamChat_missing_key_witness :
    streamChat ⟨0, none, none, none, none, none, none⟩ =
      .error ("API key not found for provider: " ++
        resolveProvider ⟨0, none, none, none, none, none, none⟩)
  ∧ generateChat ⟨0, some "gemini", none, none, none, none,
        some ⟨some "sk-open", none, none⟩⟩ =
      .error ("API key not found for provider: " ++
        resolveProvider ⟨0, some "gemini", none, none, none, none,
          some ⟨some "sk-open", none, none⟩⟩) :=
  ⟨(streamChat_missing_key ⟨0, none, none, none, none, none, none⟩ rfl).1,
   (streamChat_missing_key ⟨0, some "gemini", none, none, none, none,
      some ⟨some "sk-open", none, none⟩⟩ rfl).2⟩

/-- Claim C5: `streamChat` resolves provider (explicit option, else
`env.DEFAULT_LLM_PROVIDER`, else `"openai"`), model (explicit option,
else the registry default for the resolved provider) and API key
(explicit option, else the environment key selected by the resolved
provider), and its result carries the resolved provider and model.
Truthiness mirrors JavaScript `||`: an absent or empty option falls
through. -/
theorem streamChat_resolution (o : StreamChatOptions) (r : DispatchResult)
    (h : streamChat o = .ok r) :
    r.provider = resolveProvider o
  ∧ r.model = resolveModel o
  ∧ (truthy o.provider = true → r.provider = o.provider.getD "")
  ∧ (truthy o.provider = false →
      truthy (o.env.bind Env.DEFAULT_LLM_PROVIDER) = true →
      r.provider = (o.env.bind Env.DEFAULT_LLM_PROVIDER).getD "")
  ∧ (truthy o.provider = false →
      truthy (o.env.bind Env.DEFAULT_LLM_PROVIDER) = false → r.provider = "openai")
  ∧ (truthy o.model = true → r.model = o.model)
  ∧ (truthy o.model = false → r.model = DEFAULT_MODELS (resolveProvider o))
  ∧ (truthy o.apiKey = true → some r.apiKey = o.apiKey)
  ∧ (truthy o.apiKey = false → resolveProvider o = "openai" →
      some r.apiKey = o.env.bind Env.OPENAI_API_KEY)
  ∧ (truthy o.apiKey = false → resolveProvider o ≠ "openai" →
      some r.apiKey = o.env.bind Env.GEMINI_API_KEY) := by
  cases hk : truthy (resolveApiKey o) with
  | false => simp [streamChat, hk] at h
  | true =>
    simp only [streamChat, hk, Bool.not_true, Bool.false_eq_true, if_false,
      Except.ok.injEq] at h
    subst h
    refine ⟨rfl, rfl, ?_, ?_, ?_, ?_, ?_, ?_, ?_, ?_⟩
    · intro hp
      simp only [resolveProvider, jsOr_pos _ _ hp, jsOrStr_pos _ _ hp]
    · intro hp hd
      simp only [resolveProvider, jsOr_neg _ _ hp, jsOrStr_pos _ _ hd]
    · intro hp hd
      simp only [resolveProvider, jsOr_neg _ _ hp, jsOrStr_neg _ _ hd]
    · intro hm
      simp only [resolveModel, jsOr_pos _ _ hm]
    · intro hm
      simp only [resolveModel, jsOr_neg _ _ hm]
    · intro ha
      have hra : resolveApiKey o = o.apiKey := by
        simp only [resolveApiKey, jsOr_pos _ _ ha]
      rw [hra] at hk ⊢
      exact (truthy_some _ hk).symm
    · intro ha hpo
      have hra : resolveApiKey o = o.env.bind Env.OPENAI_API_KEY := by
        simp only [resolveApiKey, jsOr_neg _ _ ha, hpo, beq_self_eq_true, if_true]
      rw [hra] at hk ⊢
      exact (truthy_some _ hk).symm
    · intro ha hpo
      have hra : resolveApiKey o = o.env.bind Env.GEMINI_API_KEY := by
        have : (resolveProvider o == "openai") = false := by
          simp [hpo]
        simp only [resolveApiKey, jsOr_neg _ _ ha, this, Bool.false_eq_true, if_false]
      rw [hra] at hk ⊢
      exact (truthy_some _ hk).symm

/-- Witness for C5: the explicit-option path and the defaulting path. -/
theorem streamChat_resolution_witness :
    streamChat oC5 = .ok rC5
  ∧ rC5.provider = resolveProvider oC5
  ∧ rC5.model = resolveModel oC5
  ∧ rC5.provider = oC5.provider.getD ""
  ∧ some rC5.apiKey = oC5.apiKey
  ∧ streamChat oC5b = .ok rC5b
  ∧ rC5b.provider = "openai"
  ∧ rC5b.model = DEFAULT_MODELS (resolveProvider oC5b) := by
  obtain ⟨h1, h2, h3, _, _, _, _, h8, _, _⟩ :=
    streamChat_resolution oC5 rC5 rfl
  obtain ⟨g1, g2, _, _, g5, _, g7, _, _, _⟩ :=
    streamChat_resolution oC5b rC5b rfl
  exact ⟨rfl, h1, h2, h3 (by decide), h8 (by decide),
    rfl, g5 (by decide) (by decide), g7 (by decide)⟩

/-- Claim C9: whenever the resolved provider is any string other than
`"openai"` — including arbitrary values arriving through
`env.DEFAULT_LLM_PROVIDER` — the API key falls back to
`env.GEMINI_API_KEY` and both `streamChat` and `generateChat` dispatch
to the Gemini adapter; no provider value is rejected as unsupported:
with a truthy key, dispatch succeeds for every provider string. -/
theorem dispatch_non_openai (o : StreamChatOptions)
    (hp : resolveProvider o ≠ "openai") :
    (truthy o.apiKey = false → resolveApiKey o = o.env.bind Env.GEMINI_API_KEY)
  ∧ (∀ r, streamChat o = .ok r → r.adapter = .gemini)
  ∧ (∀ r, generateChat o = .ok r → r.adapter = .gemini)
  ∧ (truthy (resolveApiKey o) = true →
      streamChat o =
        .ok ⟨.gemini, resolveProvider o, resolveModel o, (resolveApiKey o).getD ""⟩
    ∧ generateChat o =
        .ok ⟨.gemini, resolveProvider o, resolveModel o, (resolveApiKey o).getD ""⟩) := by
  have hpb : (resolveProvider o == "openai") = false := by simp [hp]
  refine ⟨?_, ?_, ?_, ?_⟩
  · intro ha
    simp only [resolveApiKey, jsOr_neg _ _ ha, hpb, Bool.false_eq_true, if_false]
  · intro r h
    cases hk : truthy (resolveApiKey o) with
    | false => simp [streamChat, hk] at h
    | true =>
      simp only [streamChat, hk, Bool.not_true, Bool.false_eq_true, if_false,
        Except.ok.injEq] at h
      subst h
      simp [hpb]
  · intro r h
    cases hk : truthy (resolveApiKey o) with
    | false => simp [generateChat, hk] at h
    | true =>
      simp only [generateChat, hk, Bool.not_true, Bool.false_eq_true, if_false,
        Except.ok.injEq] at h
      subst h
      simp [hpb]
  · intro hk
    constructor
    · simp [streamChat, hk, hpb]
    · simp [generateChat, hk, hpb]

/-- Witness for C9: provider `"llama-7b"` is not rejected, the Gemini
key is used, and the Gemini adapter is invoked. -/
theorem dispatch_non_openai_witness :
    resolveApiKey oC9 = oC9.env.bind Env.GEMINI_API_KEY
  ∧ streamChat oC9 = .ok ⟨.gemini, "llama-7b", none, "gk"⟩
  ∧ generateChat oC9 = .ok ⟨.gemini, "llama-7b", none, "gk"⟩ := by
  obtain ⟨h1, _, _, h4⟩ := dispatch_non_openai oC9 (by decide)
  obtain ⟨h5, h6⟩ := h4 (by decide)
  exact ⟨h1 (by decide), h5, h6⟩

/-- Claim C10: a tracker constructed with `enabled: false` returns from
`track` immediately: the event trace is empty (no structured log line,
no insert attempt, no threshold warning) and the database is returned
unchanged, for every input. -/
theorem track_disabled (config : CostTrackerConfig) (minLevel : LogLevel)
    (clk : Clock) (db : Option Db) (p : TrackParams)
    (h : config.enabled = some false) :
    CostTracker.track (CostTracker.init config) minLevel clk db p = .ok ([], db) := by
  simp [CostTracker.track, CostTracker.init, h]

/-- Witness for C10 at a concrete disabled tracker. -/
theorem track_disabled_witness :
    CostTracker.track (CostTracker.init ⟨some false, none⟩) .info ⟨"T0", 100, 50⟩
      (some ⟨[], false, false⟩) pW = .ok ([], some ⟨[], false, false⟩) :=
  track_disabled ⟨some false, none⟩ .info ⟨"T0", 100, 50⟩ (some ⟨[], false, false⟩) pW rfl

/-! Unfold lemmas computing the `track` trace in each regime. -/

theorem track_unfold_nodb (t : CostTracker) (minLevel : LogLevel) (clk : Clock)
    (p : TrackParams) (hen : t.enabled = true) :
    CostTracker.track t minLevel clk none p =
      .ok (Logger.llm minLevel clk.nowIso "LLM API call completed"
             (trackContext p (calculateCost p.model p.usage)), none) := by
  simp [CostTracker.track, hen]

theorem track_unfold_success (t : CostTracker) (minLevel : LogLevel) (clk : Clock)
    (d : Db) (p : TrackParams) (hen : t.enabled = true) (hins : d.insertFails = false) :
    CostTracker.track t minLevel clk (some d) p =
      .ok (Logger.llm minLevel clk.nowIso "LLM API call completed"
             (trackContext p (calculateCost p.model p.usage))
           ++ Event.dbInsertAttempt
                (trackRow p (calculateCost p.model p.usage) clk.nowEpoch)
              :: t.checkDailyThreshold minLevel clk
                   (some { d with rows := d.rows ++
                       [trackRow p (calculateCost p.model p.usage) clk.nowEpoch] })
                   p.userId,
           some { d with rows := d.rows ++
               [trackRow p (calculateCost p.model p.usage) clk.nowEpoch] }) := by
  simp [CostTracker.track, hen, Db.insertRow, hins]

theorem track_unfold_failure (t : CostTracker) (minLevel : LogLevel) (clk : Clock)
    (d : Db) (p : TrackParams) (hen : t.enabled = true) (hins : d.insertFails = true) :
    CostTracker.track t minLevel clk (some d) p =
      .ok (Logger.llm minLevel clk.nowIso "LLM API call completed"
             (trackContext p (calculateCost p.model p.usage))
           ++ Event.dbInsertAttempt
                (trackRow p (calculateCost p.model p.usage) clk.nowEpoch)
              :: (Logger.log minLevel .error clk.nowIso "Failed to log usage to database"
                    (.dbError "db insert failed" p.requestId)
                  ++ t.checkDailyThreshold minLevel clk (some d) p.userId),
           some d) := by
  simp [CostTracker.track, hen, Db.insertRow, hins]

/-- Claim C4: `track` never propagates an exception — it returns `ok`
for every input, in particular when the database insert fails — and,
for an enabled tracker whose ambient logger admits `info` lines, the
structured log line is the first event of the trace, strictly before
the insert attempt (which is the second event when a database is set);
an insert failure is logged locally as an error line. -/
theorem track_no_throw_and_log_order (t : CostTracker) (minLevel : LogLevel)
    (clk : Clock) (db : Option Db) (p : TrackParams) :
    (∃ out, CostTracker.track t minLevel clk db p = .ok out)
  ∧ (t.enabled = true → Logger.shouldLog minLevel .info = true →
      ∀ events db2, CostTracker.track t minLevel clk db p = .ok (events, db2) →
        events[0]? = some (.logLine ⟨clk.nowIso, .info, "LLM API call completed",
            .llm (trackContext p (calculateCost p.model p.usage)) "llm_call"⟩)
      ∧ ∀ d, db = some d →
          events[1]? = some (.dbInsertAttempt
            (trackRow p (calculateCost p.model p.usage) clk.nowEpoch))
        ∧ (d.insertFails = true →
            Event.logLine ⟨clk.nowIso, .error, "Failed to log usage to database",
              .dbError "db insert failed" p.requestId⟩ ∈ events)) := by
  constructor
  · cases hen : t.enabled with
    | false => exact ⟨([], db), by simp [CostTracker.track, hen]⟩
    | true =>
      cases db with
      | none => exact ⟨_, track_unfold_nodb t minLevel clk p hen⟩
      | some d =>
        cases hins : d.insertFails with
        | false => exact ⟨_, track_unfold_success t minLevel clk d p hen hins⟩
        | true => exact ⟨_, track_unfold_failure t minLevel clk d p hen hins⟩
  · intro hen hlvl events db2 h
    cases db with
    | none =>
      rw [track_unfold_nodb t minLevel clk p hen] at h
      obtain ⟨h1, h2⟩ := Prod.mk.injEq .. ▸ (Except.ok.inj h)
      subst h1
      refine ⟨?_, ?_⟩
      · simp [Logger.llm, Logger.log, hlvl]
      · intro d hd
        exact absurd hd (by simp)
    | some d =>
      cases hins : d.insertFails with
      | false =>
        rw [track_unfold_success t minLevel clk d p hen hins] at h
        obtain ⟨h1, h2⟩ := Prod.mk.injEq .. ▸ (Except.ok.inj h)
        subst h1
        refine ⟨?_, ?_⟩
        · simp [Logger.llm, Logger.log, hlvl]
        · intro d2 hd
          refine ⟨by simp [Logger.llm, Logger.log, hlvl], ?_⟩
          intro hf
          rw [Option.some.inj hd] at hins
          rw [hins] at hf
          exact absurd hf (by simp)
      | true =>
        rw [track_unfold_failure t minLevel clk d p hen hins] at h
        obtain ⟨h1, h2⟩ := Prod.mk.injEq .. ▸ (Except.ok.inj h)
        subst h1
        refine ⟨?_, ?_⟩
        · simp [Logger.llm, Logger.log, hlvl]
        · intro d2 hd
          refine ⟨by simp [Logger.llm, Logger.log, hlvl], ?_⟩
          intro _
          simp [Logger.llm, Logger.log, hlvl, shouldLog_error_always]

/-- Membership in a `Logger.log` trace pins down the entry. -/
theorem mem_Logger_log (minLevel level : LogLevel) (ts msg : String)
    (c : LogContextV) (e : LogEntry)
    (he : Event.logLine e ∈ Logger.log minLevel level ts msg c) :
    e = ⟨ts, level, msg, c⟩ := by
  unfold Logger.log at he
  split at he
  · simpa using he
  · simp at he

/-- No log line produced by the daily-threshold check carries the LLM
usage context: its contexts are `thresholdError` or `warnDaily`. -/
theorem checkDailyThreshold_contexts (t : CostTracker) (minLevel : LogLevel)
    (clk : Clock) (db : Option Db) (userId : Option String) (e : LogEntry)
    (he : Event.logLine e ∈ CostTracker.checkDailyThreshold t minLevel clk db userId) :
    (∃ s, e.context = .thresholdError s)
  ∨ (∃ dc th u, e.context = .warnDaily dc th u) := by
  cases db with
  | none => simp [CostTracker.checkDailyThreshold] at he
  | some d =>
    by_cases h0 : (t.alertThreshold == 0) = true
    · simp [CostTracker.checkDailyThreshold, h0] at he
    · cases hsel : Db.selectSince d clk.midnight with
      | error s =>
        simp only [CostTracker.checkDailyThreshold, h0, Bool.false_eq_true,
          if_false, hsel] at he
        exact Or.inl ⟨s, by rw [mem_Logger_log _ _ _ _ _ _ he]⟩
      | ok logs =>
        simp only [CostTracker.checkDailyThreshold, h0, Bool.false_eq_true,
          if_false, hsel] at he
        by_cases hlt : t.alertThreshold < logs.foldl (fun s log => s + log.costUsd) 0
        · rw [if_pos hlt] at he
          exact Or.inr ⟨_, _, _, by rw [mem_Logger_log _ _ _ _ _ _ he]⟩
        · rw [if_neg hlt] at he
          simp at he

/-- Claim C8: every structured LLM usage line in a `track` trace is a
`LogEntry` — whose shape has exactly the top-level fields `timestamp`,
`level`, `message`, `context` — and its context carries the request id,
provider, model, the three token counts, the computed cost, the
latency, the status (defaulted to success), the error message and the
endpoint of the tracked call, field for field, plus the
`type: "llm_call"` marker the logger adds. -/
theorem track_llm_line_shape (t : CostTracker) (minLevel : LogLevel) (clk : Clock)
    (db : Option Db) (p : TrackParams) (events : List Event) (db2 : Option Db)
    (e : LogEntry) (c : LLMLogContext) (ty : String)
    (h : CostTracker.track t minLevel clk db p = .ok (events, db2))
    (he : Event.logLine e ∈ events) (hc : e.context = .llm c ty) :
    e.timestamp = clk.nowIso
  ∧ e.level = .info
  ∧ e.message = "LLM API call completed"
  ∧ ty = "llm_call"
  ∧ c.requestId = p.requestId
  ∧ c.provider = p.provider
  ∧ c.model = p.model
  ∧ c.inputTokens = p.usage.inputTokens
  ∧ c.outputTokens = p.usage.outputTokens
  ∧ c.totalTokens = p.usage.totalTokens
  ∧ c.costUsd = calculateCost p.model p.usage
  ∧ c.latencyMs = p.latencyMs
  ∧ c.status = jsOrStr p.status "success"
  ∧ c.errorMessage = p.errorMessage
  ∧ c.endpoint = p.endpoint := by
  have main : e = ⟨clk.nowIso, .info, "LLM API call completed",
      .llm (trackContext p (calculateCost p.model p.usage)) "llm_call"⟩ := by
    cases hen : t.enabled with
    | false =>
      rw [show CostTracker.track t minLevel clk db p = .ok ([], db) by
        simp [CostTracker.track, hen]] at h
      obtain ⟨h1, _⟩ := Prod.mk.injEq .. ▸ (Except.ok.inj h)
      subst h1
      simp at he
    | true =>
      cases db with
      | none =>
        rw [track_unfold_nodb t minLevel clk p hen] at h
        obtain ⟨h1, _⟩ := Prod.mk.injEq .. ▸ (Except.ok.inj h)
        subst h1
        exact mem_Logger_log _ _ _ _ _ _ he
      | some d =>
        cases hins : d.insertFails with
        | false =>
          rw [track_unfold_success t minLevel clk d p hen hins] at h
          obtain ⟨h1, _⟩ := Prod.mk.injEq .. ▸ (Except.ok.inj h)
          subst h1
          rw [List.mem_append] at he
          rcases he with he | he
          · exact mem_Logger_log _ _ _ _ _ _ he
          · rw [List.mem_cons] at he
            rcases he with he | he
            · exact absurd he (by simp)
            · rcases checkDailyThreshold_contexts _ _ _ _ _ _ he with ⟨s, hs⟩ | ⟨dc, th, u, hs⟩
              · rw [hc] at hs; exact absurd hs (by simp)
              · rw [hc] at hs; exact absurd hs (by simp)
        | true =>
          rw [track_unfold_failure t minLevel clk d p hen hins] at h
          obtain ⟨h1, _⟩ := Prod.mk.injEq .. ▸ (Except.ok.inj h)
          subst h1
          rw [List.mem_append] at he
          rcases he with he | he
          · exact mem_Logger_log _ _ _ _ _ _ he
          · rw [List.mem_cons] at he
            rcases he with he | he
            · exact absurd he (by simp)
            · rw [List.mem_append] at he
              rcases he with he | he
              · have := mem_Logger_log _ _ _ _ _ _ he
                rw [this] at hc
                exact absurd hc (by simp)
              · rcases checkDailyThreshold_contexts _ _ _ _ _ _ he with ⟨s, hs⟩ | ⟨dc, th, u, hs⟩
                · rw [hc] at hs; exact absurd hs (by simp)
                · rw [hc] at hs; exact absurd hs (by simp)
  have hc2 : LogContextV.llm (trackContext p (calculateCost p.model p.usage)) "llm_call"
      = LogContextV.llm c ty := by rw [← hc, main]
  obtain ⟨hcc, hty⟩ := LogContextV.llm.inj hc2
  subst hty
  subst hcc
  rw [main]
  simp [trackContext]

/-- Witness for C4: on a failing database the call still returns `ok`,
the structured line is event 0, the insert attempt event 1, and the
local error line is in the trace. -/
theorem track_no_throw_and_log_order_witness :
    CostTracker.track tW .info clkW (some dbFW) pW = .ok (evW4, some dbFW)
  ∧ evW4[0]? = some (.logLine eW)
  ∧ evW4[1]? = some (.dbInsertAttempt rowW)
  ∧ Event.logLine errW ∈ evW4 := by
  have h := (track_no_throw_and_log_order tW .info clkW (some dbFW) pW).2 rfl rfl
    evW4 (some dbFW) rfl
  exact ⟨rfl, h.1, (h.2 dbFW rfl).1, (h.2 dbFW rfl).2 rfl⟩

/-- Witness for C8 at the concrete run on the working database. -/
theorem track_llm_line_shape_witness :
    eW.timestamp = clkW.nowIso
  ∧ eW.level = .info
  ∧ eW.message = "LLM API call completed"
  ∧ ("llm_call" : String) = "llm_call"
  ∧ (trackContext pW costW).requestId = pW.requestId
  ∧ (trackContext pW costW).provider = pW.provider
  ∧ (trackContext pW costW).model = pW.model
  ∧ (trackContext pW costW).inputTokens = pW.usage.inputTokens
  ∧ (trackContext pW costW).outputTokens = pW.usage.outputTokens
  ∧ (trackContext pW costW).totalTokens = pW.usage.totalTokens
  ∧ (trackContext pW costW).costUsd = calculateCost pW.model pW.usage
  ∧ (trackContext pW costW).latencyMs = pW.latencyMs
  ∧ (trackContext pW costW).status = jsOrStr pW.status "success"
  ∧ (trackContext pW costW).errorMessage = pW.errorMessage
  ∧ (trackContext pW costW).endpoint = pW.endpoint :=
  track_llm_line_shape tW .info clkW none pW [.logLine eW] none
    eW (trackContext pW costW) "llm_call" (track_unfold_nodb tW .info clkW pW rfl)
    (List.mem_cons_self _ _) rfl

/-- Counterexample to claim C3 as stated: with a configured daily
threshold of `0`, after a successful insert the daily sum (`5` dollars,
all rows created after local midnight) strictly exceeds the configured
threshold, yet the trace contains no warning line — the source treats a
falsy (zero) `alertThreshold` as disabling the check. -/
theorem daily_threshold_zero_cex :
    CostTracker.track tC3z .info clkW (some dbC3z) pC3 = .ok (evC3z, some d2C3z)
  ∧ tC3z.alertThreshold < dailySum d2C3z.rows clkW.midnight
  ∧ evC3z.filter isWarnLine = [] := by
  have hc : calculateCost pC3.model pC3.usage = 0 := by
    have hp : MODEL_PRICING "gpt-4o-mini" = some ⟨0.00015, 0.0006⟩ := rfl
    simp [calculateCost, pC3, hp]
  refine ⟨rfl, ?_, rfl⟩
  have hth : tC3z.alertThreshold = 0 := rfl
  rw [hth]
  have hds : dailySum d2C3z.rows clkW.midnight = 5 + calculateCost pC3.model pC3.usage := by
    simp [dailySum, d2C3z, rowOld, rowC3, trackRow, clkW]
  rw [hds, hc]
  norm_num

/-- Claim C3, amended: after a successful insert, `track` sums the
`costUsd` of all rows created since local midnight (the fresh row
included, since the check re-reads the database) and — provided the
configured threshold is nonzero, since the code treats a zero threshold
as disabling the check — emits exactly one warning line carrying the
accumulated total and the threshold when the sum strictly exceeds the
threshold, and no warning line otherwise. -/
theorem daily_threshold_warn (t : CostTracker) (minLevel : LogLevel) (clk : Clock)
    (d : Db) (p : TrackParams) (events : List Event) (db2 : Option Db)
    (hen : t.enabled = true) (hth : t.alertThreshold ≠ 0)
    (hins : d.insertFails = false) (hsel : d.selectFails = false)
    (hwl : Logger.shouldLog minLevel .warn = true)
    (h : CostTracker.track t minLevel clk (some d) p = .ok (events, db2)) :
    db2 = some { d with rows := d.rows ++
        [trackRow p (calculateCost p.model p.usage) clk.nowEpoch] }
  ∧ (t.alertThreshold <
        dailySum (d.rows ++ [trackRow p (calculateCost p.model p.usage) clk.nowEpoch])
          clk.midnight →
      events.filter isWarnLine =
        [.logLine ⟨clk.nowIso, .warn, "Daily cost threshold exceeded",
          .warnDaily
            (dailySum (d.rows ++ [trackRow p (calculateCost p.model p.usage) clk.nowEpoch])
              clk.midnight)
            t.alertThreshold p.userId⟩])
  ∧ (¬ t.alertThreshold <
        dailySum (d.rows ++ [trackRow p (calculateCost p.model p.usage) clk.nowEpoch])
          clk.midnight →
      events.filter isWarnLine = []) := by
  rw [track_unfold_success t minLevel clk d p hen hins] at h
  obtain ⟨h1, h2⟩ := Prod.mk.injEq .. ▸ (Except.ok.inj h)
  subst h1
  have hb0 : (t.alertThreshold == 0) = false := beq_eq_false_iff_ne.mpr hth
  have hsel2 : Db.selectSince
      { d with rows := d.rows ++ [trackRow p (calculateCost p.model p.usage) clk.nowEpoch] }
      clk.midnight
      = .ok ((d.rows ++ [trackRow p (calculateCost p.model p.usage) clk.nowEpoch]).filter
          (fun r => decide (clk.midnight ≤ r.createdAt))) := by
    simp [Db.selectSince, hsel]
  have hds : ((d.rows ++ [trackRow p (calculateCost p.model p.usage) clk.nowEpoch]).filter
        (fun r => decide (clk.midnight ≤ r.createdAt))).foldl
        (fun s log => s + log.costUsd) 0
      = dailySum (d.rows ++ [trackRow p (calculateCost p.model p.usage) clk.nowEpoch])
          clk.midnight := by
    rw [foldl_costUsd_eq_sum, zero_add, dailySum]
  have hcdt : CostTracker.checkDailyThreshold t minLevel clk
      (some { d with rows := d.rows ++
          [trackRow p (calculateCost p.model p.usage) clk.nowEpoch] }) p.userId
      = if t.alertThreshold <
            dailySum (d.rows ++ [trackRow p (calculateCost p.model p.usage) clk.nowEpoch])
              clk.midnight then
          [.logLine ⟨clk.nowIso, .warn, "Daily cost threshold exceeded",
            .warnDaily
              (dailySum (d.rows ++ [trackRow p (calculateCost p.model p.usage) clk.nowEpoch])
                clk.midnight)
              t.alertThreshold p.userId⟩]
        else [] := by
    simp only [CostTracker.checkDailyThreshold, hb0, Bool.false_eq_true, if_false,
      hsel2, hds]
    split
    · simp [Logger.log, hwl]
    · rfl
  have hfe : (Logger.llm minLevel clk.nowIso "LLM API call completed"
        (trackContext p (calculateCost p.model p.usage))
      ++ Event.dbInsertAttempt (trackRow p (calculateCost p.model p.usage) clk.nowEpoch)
         :: CostTracker.checkDailyThreshold t minLevel clk
              (some { d with rows := d.rows ++
                  [trackRow p (calculateCost p.model p.usage) clk.nowEpoch] })
              p.userId).filter isWarnLine
      = (CostTracker.checkDailyThreshold t minLevel clk
          (some { d with rows := d.rows ++
              [trackRow p (calculateCost p.model p.usage) clk.nowEpoch] })
          p.userId).filter isWarnLine := by
    rw [List.filter_append, List.filter_cons]
    cases hsl : Logger.shouldLog minLevel .info with
    | false => simp [Logger.llm, Logger.log, hsl, isWarnLine]
    | true => simp [Logger.llm, Logger.log, hsl, isWarnLine]
  refine ⟨h2.symm, ?_, ?_⟩
  · intro hgt
    rw [hfe, hcdt, if_pos hgt]
    simp [List.filter, isWarnLine]
  · intro hgt
    rw [hfe, hcdt, if_neg hgt]
    rfl

/-- The spec example quantity: eleven one-dollar rows plus the fresh
zero-cost row strictly exceed the ten-dollar default threshold. -/
theorem dailySum_rows11_gt :
    tW.alertThreshold <
      dailySum (dbC3w.rows ++ [trackRow pC3 (calculateCost pC3.model pC3.usage) clkW.nowEpoch])
        clkW.midnight := by
  have hc : calculateCost pC3.model pC3.usage = 0 := by
    have hp : MODEL_PRICING "gpt-4o-mini" = some ⟨0.00015, 0.0006⟩ := rfl
    simp [calculateCost, pC3, hp]
  have hth : tW.alertThreshold = 10 := rfl
  rw [hth]
  simp [dailySum, dbC3w, rows11, oneDollarRow, trackRow, clkW, hc]
  norm_num

/-- Witness for the amended C3 at the spec example: the `track` call on
eleven persisted one-dollar rows with the default ten-dollar threshold
produces exactly one warning line carrying the accumulated total and
the threshold. -/
theorem daily_threshold_warn_witness :
    (Logger.llm .info clkW.nowIso "LLM API call completed"
        (trackContext pC3 (calculateCost pC3.model pC3.usage))
      ++ Event.dbInsertAttempt (trackRow pC3 (calculateCost pC3.model pC3.usage) clkW.nowEpoch)
         :: CostTracker.checkDailyThreshold tW .info clkW
              (some { dbC3w with rows := dbC3w.rows ++
                  [trackRow pC3 (calculateCost pC3.model pC3.usage) clkW.nowEpoch] })
              pC3.userId).filter isWarnLine
    = [.logLine ⟨clkW.nowIso, .warn, "Daily cost threshold exceeded",
        .warnDaily
          (dailySum (dbC3w.rows ++ [trackRow pC3 (calculateCost pC3.model pC3.usage) clkW.nowEpoch])
            clkW.midnight)
          tW.alertThreshold pC3.userId⟩] :=
  (daily_threshold_warn tW .info clkW dbC3w pC3 _ _ rfl (by decide) rfl rfl rfl
    (track_unfold_success tW .info clkW dbC3w pC3 rfl rfl)).2.1 dailySum_rows11_gt

/-! Bucket and fold lemmas for the summary aggregation. -/

theorem bucketAdd_cost_sum (m : List (String × SummaryBucket)) (k : String) (c tok : ℚ) :
    ((bucketAdd m k c tok).map (fun kv => kv.2.cost)).sum
      = (m.map (fun kv => kv.2.cost)).sum + c := by
  induction m with
  | nil => simp [bucketAdd]
  | cons kv rest ih =>
    obtain ⟨k2, b⟩ := kv
    by_cases hk : (k2 == k) = true
    · simp only [bucketAdd, hk, if_true, List.map_cons, List.sum_cons]
      ring
    · simp only [bucketAdd, hk, Bool.false_eq_true, if_false, List.map_cons,
        List.sum_cons, ih]
      ring

theorem bucketAdd_tokens_sum (m : List (String × SummaryBucket)) (k : String) (c tok : ℚ) :
    ((bucketAdd m k c tok).map (fun kv => kv.2.tokens)).sum
      = (m.map (fun kv => kv.2.tokens)).sum + tok := by
  induction m with
  | nil => simp [bucketAdd]
  | cons kv rest ih =>
    obtain ⟨k2, b⟩ := kv
    by_cases hk : (k2 == k) = true
    · simp only [bucketAdd, hk, if_true, List.map_cons, List.sum_cons]
      ring
    · simp only [bucketAdd, hk, Bool.false_eq_true, if_false, List.map_cons,
        List.sum_cons, ih]
      ring

theorem bucketAdd_requests_sum (m : List (String × SummaryBucket)) (k : String) (c tok : ℚ) :
    ((bucketAdd m k c tok).map (fun kv => kv.2.requests)).sum
      = (m.map (fun kv => kv.2.requests)).sum + 1 := by
  induction m with
  | nil => simp [bucketAdd]
  | cons kv rest ih =>
    obtain ⟨k2, b⟩ := kv
    by_cases hk : (k2 == k) = true
    · simp only [bucketAdd, hk, if_true, List.map_cons, List.sum_cons]
      omega
    · simp only [bucketAdd, hk, Bool.false_eq_true, if_false, List.map_cons,
        List.sum_cons, ih]
      omega

theorem summaryFold_totalCost (logs : List UsageLog) (acc : UsageSummary) :
    (logs.foldl summaryStep acc).totalCost
      = acc.totalCost + (logs.map UsageLog.costUsd).sum := by
  induction logs generalizing acc with
  | nil => simp
  | cons l ls ih => simp [summaryStep, ih, add_assoc]

theorem summaryFold_totalTokens (logs : List UsageLog) (acc : UsageSummary) :
    (logs.foldl summaryStep acc).totalTokens
      = acc.totalTokens + (logs.map UsageLog.totalTokens).sum := by
  induction logs generalizing acc with
  | nil => simp
  | cons l ls ih => simp [summaryStep, ih, add_assoc]

theorem summaryFold_totalRequests (logs : List UsageLog) (acc : UsageSummary) :
    (logs.foldl summaryStep acc).totalRequests = acc.totalRequests := by
  induction logs generalizing acc with
  | nil => rfl
  | cons l ls ih => simp [summaryStep, ih]

theorem summaryFold_byProvider_cost (logs : List UsageLog) (acc : UsageSummary) :
    ((logs.foldl summaryStep acc).byProvider.map (fun kv => kv.2.cost)).sum
      = (acc.byProvider.map (fun kv => kv.2.cost)).sum + (logs.map UsageLog.costUsd).sum := by
  induction logs generalizing acc with
  | nil => simp
  | cons l ls ih =>
    simp only [List.foldl_cons, ih, summaryStep, List.map_cons, List.sum_cons,
      bucketAdd_cost_sum]
    ring

theorem summaryFold_byProvider_tokens (logs : List UsageLog) (acc : UsageSummary) :
    ((logs.foldl summaryStep acc).byProvider.map (fun kv => kv.2.tokens)).sum
      = (acc.byProvider.map (fun kv => kv.2.tokens)).sum
        + (logs.map UsageLog.totalTokens).sum := by
  induction logs generalizing acc with
  | nil => simp
  | cons l ls ih =>
    simp only [List.foldl_cons, ih, summaryStep, List.map_cons, List.sum_cons,
      bucketAdd_tokens_sum]
    ring

theorem summaryFold_byProvider_requests (logs : List UsageLog) (acc : UsageSummary) :
    ((logs.foldl summaryStep acc).byProvider.map (fun kv => kv.2.requests)).sum
      = (acc.byProvider.map (fun kv => kv.2.requests)).sum + logs.length := by
  induction logs generalizing acc with
  | nil => simp
  | cons l ls ih =>
    simp only [List.foldl_cons, ih, summaryStep, List.length_cons,
      bucketAdd_requests_sum]
    omega

theorem summaryFold_byModel_cost (logs : List UsageLog) (acc : UsageSummary) :
    ((logs.foldl summaryStep acc).byModel.map (fun kv => kv.2.cost)).sum
      = (acc.byModel.map (fun kv => kv.2.cost)).sum + (logs.map UsageLog.costUsd).sum := by
  induction logs generalizing acc with
  | nil => simp
  | cons l ls ih =>
    simp only [List.foldl_cons, ih, summaryStep, List.map_cons, List.sum_cons,
      bucketAdd_cost_sum]
    ring

theorem summaryFold_byModel_tokens (logs : List UsageLog) (acc : UsageSummary) :
    ((logs.foldl summaryStep acc).byModel.map (fun kv => kv.2.tokens)).sum
      = (acc.byModel.map (fun kv => kv.2.tokens)).sum
        + (logs.map UsageLog.totalTokens).sum := by
  induction logs generalizing acc with
  | nil => simp
  | cons l ls ih =>
    simp only [List.foldl_cons, ih, summaryStep, List.map_cons, List.sum_cons,
      bucketAdd_tokens_sum]
    ring

theorem summaryFold_byModel_requests (logs : List UsageLog) (acc : UsageSummary) :
    ((logs.foldl summaryStep acc).byModel.map (fun kv => kv.2.requests)).sum
      = (acc.byModel.map (fun kv => kv.2.requests)).sum + logs.length := by
  induction logs generalizing acc with
  | nil => simp
  | cons l ls ih =>
    simp only [List.foldl_cons, ih, summaryStep, List.length_cons,
      bucketAdd_requests_sum]
    omega

/-- Claim C7: over the rows matching the filter, `getSummary` returns
`totalRequests` equal to the row count, `totalCost` and `totalTokens`
equal to the respective sums, and per-provider / per-model subtotals
(cost, tokens, requests) that each sum back to the grand totals. -/
theorem getSummary_totals (t : CostTracker) (minLevel : LogLevel) (clk : Clock)
    (d : Db) (o : SummaryOptions) (s : UsageSummary)
    (hsel : d.selectFails = false)
    (h : (CostTracker.getSummary t minLevel clk (some d) o).2 = some s) :
    s.totalRequests = (d.rows.filter (matchesFilter o)).length
  ∧ s.totalCost = ((d.rows.filter (matchesFilter o)).map UsageLog.costUsd).sum
  ∧ s.totalTokens = ((d.rows.filter (matchesFilter o)).map UsageLog.totalTokens).sum
  ∧ (s.byProvider.map (fun kv => kv.2.cost)).sum = s.totalCost
  ∧ (s.byProvider.map (fun kv => kv.2.tokens)).sum = s.totalTokens
  ∧ (s.byProvider.map (fun kv => kv.2.requests)).sum = s.totalRequests
  ∧ (s.byModel.map (fun kv => kv.2.cost)).sum = s.totalCost
  ∧ (s.byModel.map (fun kv => kv.2.tokens)).sum = s.totalTokens
  ∧ (s.byModel.map (fun kv => kv.2.requests)).sum = s.totalRequests := by
  simp only [CostTracker.getSummary, Db.selectWhere, hsel, Bool.false_eq_true,
    if_false, Option.some.injEq] at h
  subst h
  refine ⟨?_, ?_, ?_, ?_, ?_, ?_, ?_, ?_, ?_⟩
  · rw [summaryFold_totalRequests]
  · rw [summaryFold_totalCost, zero_add]
  · rw [summaryFold_totalTokens, zero_add]
  · rw [summaryFold_byProvider_cost, summaryFold_totalCost]
    simp
  · rw [summaryFold_byProvider_tokens, summaryFold_totalTokens]
    simp
  · rw [summaryFold_byProvider_requests, summaryFold_totalRequests]
    simp
  · rw [summaryFold_byModel_cost, summaryFold_totalCost]
    simp
  · rw [summaryFold_byModel_tokens, summaryFold_totalTokens]
    simp
  · rw [summaryFold_byModel_requests, summaryFold_totalRequests]
    simp

/-- Witness for C7 at the three-row, two-provider, three-model fixture
set. -/
theorem getSummary_totals_witness :
    sC7.totalRequests = (dC7.rows.filter (matchesFilter oC7)).length
  ∧ sC7.totalCost = ((dC7.rows.filter (matchesFilter oC7)).map UsageLog.costUsd).sum
  ∧ sC7.totalTokens = ((dC7.rows.filter (matchesFilter oC7)).map UsageLog.totalTokens).sum
  ∧ (sC7.byProvider.map (fun kv => kv.2.cost)).sum = sC7.totalCost
  ∧ (sC7.byProvider.map (fun kv => kv.2.tokens)).sum = sC7.totalTokens
  ∧ (sC7.byProvider.map (fun kv => kv.2.requests)).sum = sC7.totalRequests
  ∧ (sC7.byModel.map (fun kv => kv.2.cost)).sum = sC7.totalCost
  ∧ (sC7.byModel.map (fun kv => kv.2.tokens)).sum = sC7.totalTokens
  ∧ (sC7.byModel.map (fun kv => kv.2.requests)).sum = sC7.totalRequests :=
  getSummary_totals tW .info clkW dC7 oC7 sC7 rfl rfl
